import Mathlib

/-!
Verification of the delta-layer extraction script (`extract_delta_layers.py`).

The script compares the ordered layer-identifier lists of a base image and a
built image, computes the delta layers, maps them to blob files in a saved
image archive, copies the blobs out under index-prefixed names, and writes a
JSON report.  The definitions below are a shallow embedding of the pure
fragments of that script; effectful collaborators (docker client, filesystem,
tar) are modelled by explicit inputs (`Archive`, `Env`) recording their
observable outcomes.
-/

namespace ExtractDeltaLayers

/-- Embedding of `identify_delta_layers` (lines 108-149 of the script), pure
fragment: `delta_layers = [layer for layer in built_layers if layer not in
base_layers_set]` and `delta_history = built_history[:len(delta_layers)]`.
Membership in `set(base_layers)` coincides with membership in the list
`base_layers`.  History entries are opaque to this function, hence the type
parameter. -/
def identify_delta_layers {α : Type} (base_layers built_layers : List String)
    (built_history : List α) : List String × List α :=
  let delta_layers := built_layers.filter (fun layer => decide (layer ∉ base_layers))
  let delta_history := built_history.take delta_layers.length
  (delta_layers, delta_history)

/-- The contents of the extracted image archive that
`extract_layers_from_tar` consults: the manifest's `Layers` list, the config's
`rootfs.diff_ids` list, and the set of blob files actually present in the
extracted tar (existence checks `layer_path.exists()`). -/
structure Archive where
  image_layers : List String
  config_layers : List String
  files : List String

/-- Embedding of the inner loop of `extract_layers_from_tar` (lines 217-223):
`for i, config_layer in enumerate(config_layers)`, the index `i` carried
explicitly.  On a match the bounds check `i < len(image_layers)` guards the
access `image_layers[i]` and the `break`; a match at an out-of-range index
falls through and the scan continues. -/
def scanConfig (image_layers : List String) : Nat → List String → String → Option String
  | _, [], _ => none
  | i, config_layer :: rest, delta_layer =>
    if config_layer = delta_layer then
      match image_layers[i]? with
      | some f => some f
      | none => scanConfig image_layers (i + 1) rest delta_layer
    else scanConfig image_layers (i + 1) rest delta_layer

/-- Embedding of the mapping loop of `extract_layers_from_tar` (lines
214-223): for each delta layer, at most one manifest layer file is appended
to `delta_layer_files`. -/
def delta_layer_files (image_layers config_layers delta_layers : List String) :
    List String :=
  delta_layers.filterMap (scanConfig image_layers 0 config_layers)

/-- Python `f"{i+1:02d}"`: decimal rendering zero-padded to a minimum width
of two characters (wider numbers render at their own width). -/
def pyFmt02d (n : Nat) : String :=
  if n < 10 then "0" ++ toString n else toString n

/-- `layer_file.replace('/', '_')` from line 230: path separators flattened
to underscores. -/
def replaceSlash (s : String) : String :=
  String.mk (s.data.map (fun c => if c = '/' then '_' else c))

/-- The output file name `f"{i+1:02d}_{layer_name}"` of line 231, for the
entry at position `i` of `delta_layer_files`. -/
def indexed_name (i : Nat) (layer_file : String) : String :=
  pyFmt02d (i + 1) ++ "_" ++ replaceSlash layer_file

/-- Embedding of the copy loop of `extract_layers_from_tar` (lines 226-237):
`for i, layer_file in enumerate(delta_layer_files)`, the index carried
explicitly; a file is copied only if it exists in the extracted archive.
Each produced entry records the output file name and the source blob path. -/
def extract_matched (files : List String) : Nat → List String → List (String × String)
  | _, [] => []
  | i, layer_file :: rest =>
    if layer_file ∈ files then
      (indexed_name i layer_file, layer_file) :: extract_matched files (i + 1) rest
    else extract_matched files (i + 1) rest

/-- Embedding of the mapping-and-copy core of `extract_layers_from_tar`
(lines 213-237), given the parsed archive contents. -/
def extract_layers_from_tar (a : Archive) (delta_layers : List String) :
    List (String × String) :=
  extract_matched a.files 0 (delta_layer_files a.image_layers a.config_layers delta_layers)

/-- The structured record written by `generate_report` (lines 250-259). -/
structure Report where
  timestamp : String
  base_image : String
  built_image : String
  delta_layers_count : Nat
  delta_layers : List String
  delta_history : List String
  extracted_files : List String
  output_directory : String
deriving DecidableEq

/-- Embedding of `generate_report` (lines 246-262): the report dictionary it
serialises, with the impure timestamp passed in as an input. -/
def generate_report (timestamp base_image built_image : String)
    (delta_layers delta_history extracted_files : List String)
    (output_directory : String) : Report :=
  { timestamp := timestamp
    base_image := base_image
    built_image := built_image
    delta_layers_count := delta_layers.length
    delta_layers := delta_layers
    delta_history := delta_history
    extracted_files := extracted_files
    output_directory := output_directory }

/-- Observable outcomes of the effectful collaborators of one run of the
script: whether `docker.from_env()` succeeds in `__init__` (line 60), the
layer and history lists the docker client returns, whether
`save_image_as_tar` succeeds (returns a path, lines 151-170), the parsed
archive contents, whether the report write of `generate_report` succeeds
(lines 261-262), and whether the final `os.remove` succeeds (line 320). -/
structure Env where
  connectOk : Bool
  baseLayers : List String
  builtLayers : List String
  builtHistory : List String
  saveOk : Bool
  archive : Archive
  reportOk : Bool
  cleanupOk : Bool
  timestamp : String
  base_image : String
  built_image : String
  output_directory : String

/-- Embedding of the control flow of `__init__` (lines 59-64) and `run`
(lines 292-327): the process exit code together with the report written, if
any.  A docker connection failure calls `sys.exit(1)` in `__init__`.  In
`run`, an empty delta set returns early (line 305), a failed save returns
early (line 311) - both leave the process with exit code 0 and no report.
Past the save, `extract_layers_from_tar` catches its own exceptions, then
`generate_report` runs: if its write raises, the `except` block of `run`
exits with code 1 and no (complete) report; if the final `os.remove` raises
after the report was written, the process exits 1 with the report on disk. -/
def run_result (e : Env) : Nat × Option Report :=
  if e.connectOk = false then (1, none)
  else
    let p := identify_delta_layers e.baseLayers e.builtLayers e.builtHistory
    if p.1.isEmpty then (0, none)
    else if e.saveOk = false then (0, none)
    else
      let extracted := (extract_layers_from_tar e.archive p.1).map Prod.fst
      if e.reportOk = false then (1, none)
      else
        let r := generate_report e.timestamp e.base_image e.built_image
          p.1 p.2 extracted e.output_directory
        if e.cleanupOk = false then (1, some r) else (0, some r)

end ExtractDeltaLayers

namespace ExtractDeltaLayers

/-- C1: for all base layers B, built layers U and any history H, the delta
layer list computed by `identify_delta_layers` is the order-preserving filter
of U removing exactly the elements of B: it is the filter of U by
non-membership in B, it is a sublist of U (relative positions kept), no
element of B occurs in it, and every identifier absent from B occurs in it
exactly as often as in U. -/
theorem identify_delta_layers_is_filter (B U : List String) (H : List String) :
    (identify_delta_layers B U H).1 = U.filter (fun l => decide (l ∉ B)) ∧
    ((identify_delta_layers B U H).1).Sublist U ∧
    (∀ x ∈ B, x ∉ (identify_delta_layers B U H).1) ∧
    (∀ x, x ∉ B → ((identify_delta_layers B U H).1).count x = U.count x) := by
  refine ⟨rfl, List.filter_sublist U, ?_, ?_⟩
  · intro x hxB hxD
    have := List.of_mem_filter hxD
    simp only [decide_eq_true_eq] at this
    exact this hxB
  · intro x hxB
    simp [identify_delta_layers, List.count_filter, hxB]

/-- Witness for C1 at concrete inputs. -/
theorem identify_delta_layers_is_filter_witness :
    (("a" : String) ∈ (["a"] : List String) ∧
      "a" ∉ (identify_delta_layers ["a"] ["a", "b", "b"] (["h"] : List String)).1) ∧
    (("b" : String) ∉ (["a"] : List String) ∧
      ((identify_delta_layers ["a"] ["a", "b", "b"] (["h"] : List String)).1).count "b"
        = (["a", "b", "b"] : List String).count "b") :=
  ⟨⟨by decide,
    (identify_delta_layers_is_filter ["a"] ["a", "b", "b"] ["h"]).2.2.1 "a" (by decide)⟩,
   ⟨by decide,
    (identify_delta_layers_is_filter ["a"] ["a", "b", "b"] ["h"]).2.2.2 "b" (by decide)⟩⟩

/-- The scan of line 217 finds nothing when the delta identifier does not
occur in the config's diff-identifier list. -/
theorem scanConfig_eq_none_of_not_mem (il : List String) (d : String) :
    ∀ (cl : List String) (n : Nat), d ∉ cl → scanConfig il n cl d = none
  | [], _, _ => rfl
  | c :: rest, n, h => by
    have hc : ¬ c = d := fun e => h (e ▸ List.mem_cons_self c rest)
    simp only [scanConfig, if_neg hc]
    exact scanConfig_eq_none_of_not_mem il d rest (n + 1)
      (fun hm => h (List.mem_cons_of_mem c hm))

/-- When the delta identifier occurs in the config list, the scan started at
offset `n` returns the manifest entry at offset `n` plus the first match
position - when that index is in range - and `none` otherwise. -/
theorem scanConfig_eq_getElem? (il : List String) (d : String) :
    ∀ (cl : List String) (n : Nat), d ∈ cl →
      scanConfig il n cl d = il[n + cl.indexOf d]?
  | [], _, h => absurd h (List.not_mem_nil d)
  | c :: rest, n, h => by
    by_cases hc : c = d
    · subst hc
      rw [List.indexOf_cons_self]
      simp only [scanConfig, if_pos rfl, Nat.add_zero]
      cases hgl : il[n]? with
      | some f => rfl
      | none =>
        have hlen : il.length ≤ n := by
          rcases Nat.lt_or_ge n il.length with hlt | hge
          · rw [List.getElem?_eq_getElem hlt] at hgl; cases hgl
          · exact hge
        by_cases hr : c ∈ rest
        · rw [scanConfig_eq_getElem? il c rest (n + 1) hr]
          exact List.getElem?_eq_none (by omega)
        · exact scanConfig_eq_none_of_not_mem il c rest (n + 1) hr
    · have hd : d ∈ rest := by
        cases List.mem_cons.mp h with
        | inl e => exact absurd e.symm hc
        | inr hr => exact hr
      rw [List.indexOf_cons_ne rest hc]
      simp only [scanConfig, if_neg hc]
      have e : n + Nat.succ (rest.indexOf d) = (n + 1) + rest.indexOf d := by omega
      rw [e, scanConfig_eq_getElem? il d rest (n + 1) hd]

/-- The copy loop emits at most one output per entry of
`delta_layer_files`. -/
theorem extract_matched_length_le (files : List String) :
    ∀ (i : Nat) (dlf : List String),
      (extract_matched files i dlf).length ≤ dlf.length
  | _, [] => Nat.le_refl 0
  | i, f :: rest => by
    simp only [extract_matched]
    by_cases hf : f ∈ files
    · rw [if_pos hf]
      simpa using Nat.succ_le_succ (extract_matched_length_le files (i + 1) rest)
    · rw [if_neg hf]
      exact Nat.le_succ_of_le (extract_matched_length_le files (i + 1) rest)

/-- An output at position `i` of `delta_layer_files` keeps the index prefix
`i+1` whenever its file exists, whatever happened at earlier positions. -/
theorem extract_matched_mem (files : List String) :
    ∀ (dlf : List String) (n i : Nat) (f : String),
      dlf[i]? = some f → f ∈ files →
      (indexed_name (n + i) f, f) ∈ extract_matched files n dlf
  | [], _, i, f, h, _ => by simp at h
  | g :: rest, n, 0, f, h, hf => by
    simp only [List.getElem?_cons_zero, Option.some.injEq] at h
    subst h
    simp only [extract_matched, if_pos hf, Nat.add_zero]
    exact List.mem_cons_self _ _
  | g :: rest, n, i + 1, f, h, hf => by
    simp only [List.getElem?_cons_succ] at h
    have hrec := extract_matched_mem files rest (n + 1) i f h hf
    have e : n + 1 + i = n + (i + 1) := by omega
    rw [e] at hrec
    simp only [extract_matched]
    by_cases hg : g ∈ files
    · rw [if_pos hg]
      exact List.mem_cons_of_mem _ hrec
    · rw [if_neg hg]
      exact hrec

/-- C2: the delta history returned by `identify_delta_layers` is always the
positional prefix of the built history of length `len(delta_layers)`, and on
the concrete example - base `[sha:a, sha:b]`, built
`[sha:a, sha:b, sha:c, sha:d]`, newest-first history
`[h(d), h(c), h(b), h(a)]` - it returns delta layers `[sha:c, sha:d]` and
delta history `[h(d), h(c)]`. -/
theorem identify_delta_layers_history_prefix :
    (∀ (B U : List String) (H : List String),
      (identify_delta_layers B U H).2 =
        H.take ((identify_delta_layers B U H).1).length) ∧
    identify_delta_layers ["sha:a", "sha:b"] ["sha:a", "sha:b", "sha:c", "sha:d"]
        ["h(d)", "h(c)", "h(b)", "h(a)"] =
      (["sha:c", "sha:d"], ["h(d)", "h(c)"]) :=
  ⟨fun _ _ _ => rfl, by decide⟩

/-- C5: a delta identifier absent from the config's diff_ids list produces
zero output files for that identifier and does not abort the mapping step:
removing it from the delta list leaves the extraction result unchanged; the
number of extracted files never exceeds the number of delta identifiers and
can be strictly smaller. -/
theorem unmatched_identifier_skipped (a : Archive) (d : String) (ds₁ ds₂ : List String)
    (hd : d ∉ a.config_layers) :
    extract_layers_from_tar a (ds₁ ++ d :: ds₂) = extract_layers_from_tar a (ds₁ ++ ds₂) ∧
    (∀ ds : List String, (extract_layers_from_tar a ds).length ≤ ds.length) ∧
    (extract_layers_from_tar ⟨[], [], []⟩ ["x"]).length < (["x"] : List String).length := by
  have h0 : scanConfig a.image_layers 0 a.config_layers d = none :=
    scanConfig_eq_none_of_not_mem a.image_layers d a.config_layers 0 hd
  refine ⟨?_, ?_, by decide⟩
  · unfold extract_layers_from_tar delta_layer_files
    rw [List.filterMap_append, List.filterMap_append, List.filterMap_cons_none h0]
  · intro ds
    exact Nat.le_trans
      (extract_matched_length_le a.files 0
        (delta_layer_files a.image_layers a.config_layers ds))
      (List.length_filterMap_le _ ds)

/-- Witness for C5 at concrete inputs. -/
theorem unmatched_identifier_skipped_witness :
    ("sha:z" ∉ (["sha:x"] : List String)) ∧
    extract_layers_from_tar ⟨["f1"], ["sha:x"], ["f1"]⟩ (["sha:x"] ++ "sha:z" :: []) =
      extract_layers_from_tar ⟨["f1"], ["sha:x"], ["f1"]⟩ (["sha:x"] ++ []) :=
  ⟨by decide,
   (unmatched_identifier_skipped ⟨["f1"], ["sha:x"], ["f1"]⟩ "sha:z" ["sha:x"] []
     (by decide)).1⟩

/-- C9: the access `image_layers[i]` of line 221 is guarded by
`i < len(image_layers)`: a delta identifier whose first match in the config
list sits at a position not below the manifest Layers length is silently
skipped - the scan returns nothing and the extraction result is as if the
identifier were absent - and no out-of-range access occurs (the embedding
only ever uses the total lookup `il[i]?`). -/
theorem out_of_range_match_skipped (a : Archive) (d : String) (ds₁ ds₂ : List String)
    (h : a.image_layers.length ≤ a.config_layers.indexOf d) :
    scanConfig a.image_layers 0 a.config_layers d = none ∧
    extract_layers_from_tar a (ds₁ ++ d :: ds₂) = extract_layers_from_tar a (ds₁ ++ ds₂) := by
  have h0 : scanConfig a.image_layers 0 a.config_layers d = none := by
    by_cases hm : d ∈ a.config_layers
    · rw [scanConfig_eq_getElem? a.image_layers d a.config_layers 0 hm]
      exact List.getElem?_eq_none (by omega)
    · exact scanConfig_eq_none_of_not_mem a.image_layers d a.config_layers 0 hm
  refine ⟨h0, ?_⟩
  unfold extract_layers_from_tar delta_layer_files
  rw [List.filterMap_append, List.filterMap_append, List.filterMap_cons_none h0]

/-- Witness for C9 at concrete inputs (config longer than the manifest). -/
theorem out_of_range_match_skipped_witness :
    ((["L"] : List String).length ≤ (["c0", "c1"] : List String).indexOf "c1") ∧
    scanConfig ["L"] 0 ["c0", "c1"] "c1" = none :=
  ⟨by decide,
   (out_of_range_match_skipped ⟨["L"], ["c0", "c1"], ["L"]⟩ "c1" [] [] (by decide)).1⟩

/-- C3 (amended): a delta identifier whose first match in the config's
diff_ids list sits at position `i < len(Layers)` resolves to the manifest
Layers entry at `i`; on the concrete example (Layers
`[blobs/1.tar, blobs/2.tar]`, diff_ids `[sha:x, sha:y]`, delta `[sha:y]`)
exactly one output is produced, a copy of `blobs/2.tar` named
`01_blobs_2.tar` - the prefix `01_` followed by the full blob path with `/`
flattened to `_`, not the bare base name. -/
theorem mapping_resolves_first_match (il cl : List String) (d : String)
    (hmem : d ∈ cl) (hlt : cl.indexOf d < il.length) :
    scanConfig il 0 cl d = some (il.get ⟨cl.indexOf d, hlt⟩) ∧
    extract_layers_from_tar
        ⟨["blobs/1.tar", "blobs/2.tar"], ["sha:x", "sha:y"],
          ["blobs/1.tar", "blobs/2.tar"]⟩ ["sha:y"] =
      [("01_blobs_2.tar", "blobs/2.tar")] := by
  refine ⟨?_, by decide⟩
  rw [scanConfig_eq_getElem? il d cl 0 hmem]
  rw [List.getElem?_eq_getElem (by omega : 0 + cl.indexOf d < il.length)]
  simp [List.get_eq_getElem]

/-- Witness for C3 (amended) at concrete inputs. -/
theorem mapping_resolves_first_match_witness :
    ("c1" ∈ (["c0", "c1"] : List String)) ∧
    ((["c0", "c1"] : List String).indexOf "c1" < (["L0", "L1"] : List String).length) ∧
    extract_layers_from_tar
        ⟨["blobs/1.tar", "blobs/2.tar"], ["sha:x", "sha:y"],
          ["blobs/1.tar", "blobs/2.tar"]⟩ ["sha:y"] =
      [("01_blobs_2.tar", "blobs/2.tar")] :=
  ⟨by decide, by decide,
   (mapping_resolves_first_match ["L0", "L1"] ["c0", "c1"] "c1" (by decide) (by decide)).2⟩

/-- C3 counterexample: on the claim's own example archive the single
produced file is named `01_blobs_2.tar`, not `01_2.tar` as the claim
states. -/
theorem mapping_example_name_refuted :
    (extract_layers_from_tar
        ⟨["blobs/1.tar", "blobs/2.tar"], ["sha:x", "sha:y"],
          ["blobs/1.tar", "blobs/2.tar"]⟩ ["sha:y"]).map Prod.fst =
      ["01_blobs_2.tar"] ∧
    (extract_layers_from_tar
        ⟨["blobs/1.tar", "blobs/2.tar"], ["sha:x", "sha:y"],
          ["blobs/1.tar", "blobs/2.tar"]⟩ ["sha:y"]).map Prod.fst ≠
      ["01_2.tar"] := by
  exact ⟨by decide, by decide⟩

/-- C10: the output index prefix is assigned from the position in the
matched-file list before the existence check: an entry at position `i` whose
blob exists is emitted under prefix `i+1` regardless of earlier missing
files; concretely, with the middle one of three matched files missing from
the archive, the outputs are `01_a` and `03_c` - non-contiguous and not
renumbered to the output count. -/
theorem index_assigned_before_existence_check :
    (∀ (files dlf : List String) (i : Nat) (f : String),
      dlf[i]? = some f → f ∈ files →
      (indexed_name i f, f) ∈ extract_matched files 0 dlf) ∧
    extract_matched ["a", "c"] 0 ["a", "b", "c"] = [("01_a", "a"), ("03_c", "c")] := by
  constructor
  · intro files dlf i f h hf
    have hrec := extract_matched_mem files dlf 0 i f h hf
    simpa using hrec
  · decide

/-- Witness for C10 at concrete inputs. -/
theorem index_assigned_before_existence_check_witness :
    ((["a", "b", "c"] : List String)[2]? = some "c") ∧
    ("c" ∈ (["a", "c"] : List String)) ∧
    (indexed_name 2 "c", "c") ∈ extract_matched ["a", "c"] 0 ["a", "b", "c"] :=
  ⟨by decide, by decide,
   index_assigned_before_existence_check.1 ["a", "c"] ["a", "b", "c"] 2 "c"
     (by decide) (by decide)⟩

/-- The strict lexicographic order on strings by character, the order in
which a directory listing sorts the produced file names. -/
def strLt (x y : String) : Prop := List.lt x.data y.data

instance (x y : String) : Decidable (strLt x y) :=
  List.hasDecidableLt x.data y.data

/-- Lexicographic comparison of character lists of equal length is decided
before the end of either list, so it is stable under appending suffixes. -/
theorem charList_lt_append (a b : List Char) :
    ∀ {p q : List Char}, List.lt p q → p.length = q.length →
      List.lt (p ++ a) (q ++ b) := by
  intro p q h
  induction h with
  | nil c cs => intro hlen; simp at hlen
  | head as bs hab => intro _; exact List.lt.head _ _ hab
  | tail hab hba hlt ih =>
    intro hlen
    exact List.lt.tail hab hba (ih (by simpa using hlen))

/-- For numbers up to 99, the `%02d` rendering is exactly two characters. -/
theorem pyFmt02d_length_two : ∀ n, n ≤ 99 → (pyFmt02d n).data.length = 2 := by decide

/-- For numbers up to 99, the `%02d` rendering is strictly monotone in the
lexicographic character order. -/
theorem pyFmt02d_lt :
    ∀ n, n ≤ 99 → ∀ m, m < n → strLt (pyFmt02d m) (pyFmt02d n) := by decide

/-- Output names whose indices stay below 99 are ordered lexicographically
by their index, whatever the blob names are. -/
theorem indexed_name_lt (i j : Nat) (f g : String) (hij : i < j) (hj : j + 1 ≤ 99) :
    strLt (indexed_name i f) (indexed_name j g) := by
  have h1 : strLt (pyFmt02d (i + 1)) (pyFmt02d (j + 1)) :=
    pyFmt02d_lt (j + 1) hj (i + 1) (by omega)
  have hl1 : (pyFmt02d (i + 1)).data.length = 2 := pyFmt02d_length_two (i + 1) (by omega)
  have hl2 : (pyFmt02d (j + 1)).data.length = 2 := pyFmt02d_length_two (j + 1) hj
  show List.lt (indexed_name i f).data (indexed_name j g).data
  simp only [indexed_name, String.data_append, List.append_assoc]
  exact charList_lt_append _ _ h1 (by rw [hl1, hl2])

/-- When every matched file exists in the archive, the copy loop emits one
output per entry of `delta_layer_files`, tagged with its enumeration
index. -/
theorem extract_matched_eq_map (files : List String) :
    ∀ (dlf : List String) (n : Nat), (∀ f ∈ dlf, f ∈ files) →
      extract_matched files n dlf =
        (dlf.enumFrom n).map (fun p => (indexed_name p.1 p.2, p.2))
  | [], _, _ => rfl
  | f :: rest, n, h => by
    have hf : f ∈ files := h f (List.mem_cons_self f rest)
    simp only [extract_matched, if_pos hf, List.enumFrom_cons, List.map_cons]
    exact congrArg _ (extract_matched_eq_map files rest (n + 1)
      (fun x hx => h x (List.mem_cons_of_mem f hx)))

/-- One hundred distinct delta identifiers. -/
def c4delta : List String := (List.range 100).map (fun n => "d" ++ toString n)

/-- An archive whose manifest Layers, config diff_ids and extracted file set
all consist of the hundred identifiers, so every delta identifier matches
and every matched file exists. -/
def c4archive : Archive := ⟨c4delta, c4delta, c4delta⟩

/-- The produced output names for the hundred-layer delta set. -/
def c4names : List String := (extract_layers_from_tar c4archive c4delta).map Prod.fst

set_option maxRecDepth 4096 in
/-- C4 counterexample: with a Delta Set of length N = 100, all matched to
existing blobs, the prefixes are not of fixed width max(2, digits(100)) = 3:
the first produced name is `01_d0`, with a two-character prefix; and
lexicographic sorting does not yield the Delta Set order: the name at
position 99, `100_d99`, sorts strictly before the name at position 9,
`10_d9`. -/
theorem prefix_width_refuted :
    c4names.length = 100 ∧
    c4names[0]? = some "01_d0" ∧
    c4names[9]? = some "10_d9" ∧
    c4names[99]? = some "100_d99" ∧
    strLt "100_d99" "10_d9" := by decide

set_option maxHeartbeats 1000000 in
/-- C4 (amended): for every non-empty Delta Set of length N ≤ 99 whose
identifiers are all matched to existing blob files, the produced names carry
index prefixes 01_ through NN_ of fixed width 2 = max(2, digits(N)) and the
produced name list is strictly lexicographically sorted, so sorting it
yields the Delta Set (extraction) order.  For N ≥ 100 the `%02d` format pads
each index only to its own digit count, so prefix widths mix and
lexicographic order diverges from extraction order. -/
theorem extraction_sorted_up_to_99 (a : Archive) (ds : List String)
    (hmatch : (delta_layer_files a.image_layers a.config_layers ds).length = ds.length)
    (hexist : ∀ f ∈ delta_layer_files a.image_layers a.config_layers ds, f ∈ a.files)
    (hN : ds.length ≤ 99) (hne : ds ≠ []) :
    ((extract_layers_from_tar a ds).map Prod.fst).length = ds.length ∧
    (extract_layers_from_tar a ds).map Prod.fst =
      ((delta_layer_files a.image_layers a.config_layers ds).enum).map
        (fun p => indexed_name p.1 p.2) ∧
    (∀ i, i < ds.length → (pyFmt02d (i + 1)).data.length = 2) ∧
    (extract_layers_from_tar a ds).map Prod.fst ≠ [] ∧
    ((extract_layers_from_tar a ds).map Prod.fst).Pairwise strLt := by
  have hx : extract_layers_from_tar a ds =
      ((delta_layer_files a.image_layers a.config_layers ds).enum).map
        (fun p => (indexed_name p.1 p.2, p.2)) :=
    extract_matched_eq_map a.files (delta_layer_files a.image_layers a.config_layers ds)
      0 hexist
  have hnames : (extract_layers_from_tar a ds).map Prod.fst =
      ((delta_layer_files a.image_layers a.config_layers ds).enum).map
        (fun p => indexed_name p.1 p.2) := by
    rw [hx, List.map_map]
    rfl
  have hlen : ((extract_layers_from_tar a ds).map Prod.fst).length = ds.length := by
    rw [hnames, List.length_map, List.enum_length, hmatch]
  refine ⟨hlen, hnames, ?_, ?_, ?_⟩
  · intro i hi
    exact pyFmt02d_length_two (i + 1) (by omega)
  · intro hnil
    rw [hnil] at hlen
    exact hne (List.length_eq_zero.mp hlen.symm)
  · rw [hnames, List.pairwise_iff_getElem]
    intro i j hi hj hij
    have hjlen : j < ds.length := by
      simpa [List.length_map, List.enum_length, hmatch] using hj
    simp only [List.getElem_map, List.getElem_enum]
    exact indexed_name_lt i j _ _ hij (by omega)

/-- Witness for C4 (amended) at concrete inputs. -/
theorem extraction_sorted_up_to_99_witness :
    ((delta_layer_files ["a", "b"] ["x", "y"] ["x", "y"]).length =
        (["x", "y"] : List String).length ∧
      (∀ f ∈ delta_layer_files ["a", "b"] ["x", "y"] ["x", "y"],
        f ∈ (["a", "b"] : List String)) ∧
      (["x", "y"] : List String).length ≤ 99 ∧ (["x", "y"] : List String) ≠ []) ∧
    ((extract_layers_from_tar ⟨["a", "b"], ["x", "y"], ["a", "b"]⟩
        ["x", "y"]).map Prod.fst).Pairwise strLt :=
  ⟨⟨by decide, by decide, by decide, by decide⟩,
   (extraction_sorted_up_to_99 ⟨["a", "b"], ["x", "y"], ["a", "b"]⟩ ["x", "y"]
     (by decide) (by decide) (by decide) (by decide)).2.2.2.2⟩

/-- C8: the report always carries a delta-layer count equal to the length of
the delta layer list, the count does not depend on the extracted-files list,
and the two counts are separate fields that can differ. -/
theorem report_count_eq_delta_length :
    (∀ (ts bi bu od : String) (dl dh ef : List String),
      (generate_report ts bi bu dl dh ef od).delta_layers_count = dl.length) ∧
    (∀ (ts bi bu od : String) (dl dh ef₁ ef₂ : List String),
      (generate_report ts bi bu dl dh ef₁ od).delta_layers_count =
        (generate_report ts bi bu dl dh ef₂ od).delta_layers_count) ∧
    ((generate_report "t" "b" "u" ["l1"] [] [] "o").delta_layers_count = 1 ∧
      (generate_report "t" "b" "u" ["l1"] [] [] "o").extracted_files.length = 0) :=
  ⟨fun _ _ _ _ _ _ _ => rfl, fun _ _ _ _ _ _ _ _ => rfl, by decide⟩

/-- A run whose archive save fails after a nonempty delta set was found:
base image with no layers, built image with one layer. -/
def envSaveFail : Env :=
  { connectOk := true, baseLayers := [], builtLayers := ["l1"], builtHistory := ["h1"],
    saveOk := false, archive := ⟨[], [], []⟩, reportOk := true, cleanupOk := true,
    timestamp := "t", base_image := "b", built_image := "u", output_directory := "o" }

/-- A run where base and built images have identical layer lists: the delta
set is empty. -/
def envIdenticalImages : Env :=
  { envSaveFail with baseLayers := ["l1"], saveOk := true }

/-- A run that reaches the report step but extracts zero files (the archive
holds nothing matching the delta identifiers). -/
def envZeroExtracted : Env :=
  { envSaveFail with saveOk := true }

/-- C6 counterexample: an archive save failure does not exit with code 1:
on a run with a nonempty delta set whose save fails, `run` logs the error
and returns normally, so the process exit code is 0, contradicting the
claim that archive save failure is an exit-1 case. -/
theorem exit_code_save_failure_refuted :
    envSaveFail.saveOk = false ∧
    ((identify_delta_layers envSaveFail.baseLayers envSaveFail.builtLayers
        envSaveFail.builtHistory).1).isEmpty = false ∧
    (run_result envSaveFail).1 = 0 := by decide

/-- C6 (amended): the process exits with code 1 exactly on docker connection
failure, or when - after a nonempty delta set and a successful archive save -
the report write or the final tar cleanup raises; a run with an empty delta
set is a successful early return with exit code 0, and an archive save
failure is likewise an early return with exit code 0, not a failure exit. -/
theorem exit_code_characterization (e : Env) :
    ((run_result e).1 = 1 ↔
      e.connectOk = false ∨
      (((identify_delta_layers e.baseLayers e.builtLayers e.builtHistory).1).isEmpty = false ∧
        e.saveOk = true ∧ (e.reportOk = false ∨ e.cleanupOk = false))) ∧
    (e.connectOk = true →
      ((identify_delta_layers e.baseLayers e.builtLayers e.builtHistory).1).isEmpty = true →
      (run_result e).1 = 0) ∧
    (e.connectOk = true → e.saveOk = false → (run_result e).1 = 0) := by
  obtain ⟨c, bl, ul, hh, s, ar, r, cl, ts, bi, bu, od⟩ := e
  simp only [run_result]
  cases c <;> cases s <;> cases r <;> cases cl <;>
    cases hE : ((identify_delta_layers bl ul hh).1).isEmpty <;>
      simp [hE]

/-- Witness for C6 (amended) at concrete inputs. -/
theorem exit_code_characterization_witness :
    (envSaveFail.connectOk = true ∧ envSaveFail.saveOk = false) ∧
    (run_result envSaveFail).1 = 0 :=
  ⟨⟨by decide, by decide⟩,
   (exit_code_characterization envSaveFail).2.2 (by decide) (by decide)⟩

/-- C7 counterexample: a run that stops at the empty delta set writes no
report at all, contradicting the claim that the structured report is written
on every run regardless of how far the pipeline progressed. -/
theorem report_always_written_refuted :
    (run_result envIdenticalImages).2 = none ∧
    envIdenticalImages.connectOk = true ∧ envIdenticalImages.saveOk = true ∧
    envIdenticalImages.reportOk = true := by decide

/-- C7 (amended): the structured report is written exactly when the pipeline
reaches the report step - docker connected, nonempty delta set, successful
archive save, successful report write - and then records the state reached
(delta layers, history, extracted files); it does record runs that extracted
zero files, but on an empty delta set or a failed archive save no report is
written at all. -/
theorem report_written_characterization :
    (∀ e : Env, (run_result e).2 =
      if (e.connectOk &&
          !((identify_delta_layers e.baseLayers e.builtLayers e.builtHistory).1).isEmpty &&
          e.saveOk && e.reportOk) = true then
        some (generate_report e.timestamp e.base_image e.built_image
          (identify_delta_layers e.baseLayers e.builtLayers e.builtHistory).1
          (identify_delta_layers e.baseLayers e.builtLayers e.builtHistory).2
          ((extract_layers_from_tar e.archive
            (identify_delta_layers e.baseLayers e.builtLayers e.builtHistory).1).map Prod.fst)
          e.output_directory)
      else none) ∧
    (run_result envZeroExtracted).2 = some (generate_report "t" "b" "u" ["l1"] ["h1"] [] "o") := by
  constructor
  · intro e
    obtain ⟨c, bl, ul, hh, s, ar, r, cl, ts, bi, bu, od⟩ := e
    simp only [run_result]
    cases c <;> cases s <;> cases r <;> cases cl <;>
      cases hE : ((identify_delta_layers bl ul hh).1).isEmpty <;> simp [hE]
  · decide

end ExtractDeltaLayers
